import Mathlib

/-!
Verification of the lane-invasion detector of `LaneInvasionSensor.cpp`
(`carla::client::LaneInvasionCallback` and `carla::client::LaneInvasionSensor`).

Modelling choices:
* Scalar coordinates are rationals.  Machine floats form a subset of the
  rationals, so the float-valued library routines `std::cos`, `std::sin` and
  the float constant `Math::Pi` are modelled as abstract parameters
  `fcos fsin : ℚ → ℚ` and `fpi : ℚ` of the geometric functions.
* The test `(next->corners[i] - prev->corners[i]).Length() < distance_threshold`
  compares a Euclidean norm with the positive constant
  `10 * FLT_EPSILON`.  Since `Length v = sqrt (sqLen v)`, `sqLen v ≥ 0` and the
  threshold is positive, the test is equivalent to
  `sqLen v < distance_threshold ^ 2`, which is how it is stated here
  (square roots are avoided so that every definition stays executable).
* The atomic slot `_bounds` (an `AtomicSharedPtr<const Bounds>`) is threaded
  through `Tick` explicitly as an `Option Bounds`.  Writes performed by other
  threads are modelled by an interference schedule: a list with one entry per
  store access made by this tick, `some b` meaning another thread installed the
  snapshot `b` just before the access and `none` meaning no interference.
  `compare_exchange` compares snapshots by value; on failure the expected
  value is refreshed with the actual content, exactly as the C++ call
  refreshes `prev`.
-/

attribute [local semireducible] Rat.add Rat.sub Rat.mul Rat.inv

namespace CarlaLaneInvasion

/-- `carla::geom::Location` restricted to the fields the detector uses. -/
structure Location where
  x : ℚ
  y : ℚ
  z : ℚ
deriving DecidableEq, Repr

instance : Add Location := ⟨fun a b => ⟨a.x + b.x, a.y + b.y, a.z + b.z⟩⟩
instance : Sub Location := ⟨fun a b => ⟨a.x - b.x, a.y - b.y, a.z - b.z⟩⟩

theorem Location.add_def (a b : Location) :
    a + b = ⟨a.x + b.x, a.y + b.y, a.z + b.z⟩ := rfl

theorem Location.sub_def (a b : Location) :
    a - b = ⟨a.x - b.x, a.y - b.y, a.z - b.z⟩ := rfl

/-- Squared Euclidean norm; `Vector3D::Length` is its square root. -/
def Location.sqLen (l : Location) : ℚ := l.x ^ 2 + l.y ^ 2 + l.z ^ 2

/-- Orientation part of `carla::geom::Transform`; only the yaw (in degrees)
is read by this detector. -/
structure Rotation where
  yaw : ℚ
deriving DecidableEq, Repr

/-- `carla::geom::Transform`: a world-space location and an orientation. -/
structure Transform where
  location : Location
  rotation : Rotation
deriving DecidableEq, Repr

/-- `carla::geom::BoundingBox`: local-space center offset and half-extents. -/
structure BoundingBox where
  location : Location
  extent : Location
deriving DecidableEq, Repr

/-- The static `Rotate` helper (lines 28-38): convert the yaw from degrees to
radians with the float constant `pi / 180`, then apply the 2D rotation matrix
to `(x, y)` and pass `z` through.  `fcos`, `fsin`, `fpi` stand for the float
library routines. -/
def Rotate (fcos fsin : ℚ → ℚ) (fpi : ℚ) (yaw : ℚ) (location : Location) :
    Location :=
  let yawRad := yaw * (fpi / 180)
  let c := fcos yawRad
  let s := fsin yawRad
  ⟨c * location.x - s * location.y,
   s * location.x + c * location.y,
   location.z⟩

/-- `std::numeric_limits<float>::epsilon() = 2⁻²³`. -/
def floatEpsilon : ℚ := 1 / 2 ^ 23

/-- `distance_threshold = 10.0f * FLT_EPSILON` (line 98). -/
def distance_threshold : ℚ := 10 * floatEpsilon

/-- Square of the movement threshold; `Length v < distance_threshold` is
equivalent to `sqLen v < distance_threshold ^ 2`. -/
def distance_threshold_sq : ℚ := distance_threshold ^ 2

/-- `LaneInvasionCallback::Bounds` (lines 62-65): a frame number together with
the four world-space corners of the footprint. -/
structure Bounds where
  frame : ℕ
  corners : Fin 4 → Location

instance : DecidableEq Bounds := fun a b =>
  decidable_of_iff (a.frame = b.frame ∧ ∀ i, a.corners i = b.corners i)
    (by
      constructor
      · rintro ⟨h1, h2⟩
        cases a; cases b
        simp only [Bounds.mk.injEq]
        exact ⟨h1, funext h2⟩
      · rintro rfl
        exact ⟨rfl, fun _ => rfl⟩)

/-- `LaneInvasionCallback::MakeBounds` (lines 129-140): the footprint center is
`transform.location + box.location`; each corner adds the rotated signed
half-extent offset, in the fixed source order
`(+x,+y), (-x,+y), (+x,-y), (-x,-y)`. -/
def MakeBounds (fcos fsin : ℚ → ℚ) (fpi : ℚ) (box : BoundingBox)
    (frame : ℕ) (transform : Transform) : Bounds :=
  let location := transform.location + box.location
  let yaw := transform.rotation.yaw
  { frame := frame
    corners := fun i =>
      location + Rotate fcos fsin fpi yaw
        (match i with
          | 0 => ⟨box.extent.x, box.extent.y, 0⟩
          | 1 => ⟨-box.extent.x, box.extent.y, 0⟩
          | 2 => ⟨box.extent.x, -box.extent.y, 0⟩
          | 3 => ⟨-box.extent.x, -box.extent.y, 0⟩) }

abbrev ActorId := ℕ

/-- Modelled from the spec: the world snapshot interface (`find(actor_id)`,
`frame_number()`, `elapsed_seconds()`, spec section 6).  `WorldSnapshot` itself
is defined outside this file; `GetFrame()` and `GetTimestamp().frame` both
return the snapshot's frame number. -/
structure WorldSnapshot where
  frame : ℕ
  elapsed_seconds : ℚ
  actors : List (ActorId × Transform)

/-- Modelled from the spec: `snapshot.Find(id)` yields the actor's current
transform when the actor is present, and nothing otherwise. -/
def WorldSnapshot.find (s : WorldSnapshot) (id : ActorId) : Option Transform :=
  (s.actors.find? (fun p => p.1 == id)).map Prod.snd

/-- `carla::sensor::data::LaneInvasionEvent`, as constructed on lines 120-125.
`M` is the opaque lane-marking type. -/
structure LaneInvasionEvent (M : Type) where
  frame : ℕ
  elapsed_seconds : ℚ
  transform : Transform
  parent : ActorId
  crossed_lane_markings : List M
deriving DecidableEq

/-- The immutable per-detector data captured by the `LaneInvasionCallback`
constructor: the tracked actor id, its bounding box, and the geometry
collaborator `_map`, abstracted to its `CalculateCrossedLanes` query. -/
structure CallbackState (M : Type) where
  parent : ActorId
  parent_bounding_box : BoundingBox
  calcCrossedLanes : Location → Location → List M

/-- Interference schedule: one entry per store access of this tick.  `some b`
means another thread installed snapshot `b` just before the access. -/
abbrev Sched := List (Option Bounds)

/-- One store access: apply the pending interference write (if any) to obtain
the value the access observes, returning the remaining schedule. -/
def observeStore : Sched → Option Bounds → Option Bounds × Sched
  | [], s => (s, [])
  | none :: rest, s => (s, rest)
  | some b :: rest, _ => (some b, rest)

/-- Result of the commit retry loop (lines 106-110). -/
inductive CommitResult where
  | stale (cur : Bounds)
  | committed (replaced : Bounds)
deriving DecidableEq

/-- The `do { if (prev->frame >= next->frame) return; } while
(!compare_exchange(&prev, next))` loop of lines 106-110.  At every iteration
the slot holds `some prev` unless interference rewrites it, so the
compare-exchange succeeds exactly when no (or an equal-valued) interfering
write occurred before it; on failure `prev` is refreshed with the actual
value and the staleness check runs again. -/
def commitLoop (next : Bounds) : Sched → Bounds → CommitResult
  | [], prev =>
      if next.frame ≤ prev.frame then .stale prev else .committed prev
  | none :: _, prev =>
      if next.frame ≤ prev.frame then .stale prev else .committed prev
  | some b :: rest, prev =>
      if next.frame ≤ prev.frame then .stale prev
      else if b = prev then .committed prev
      else commitLoop next rest b

/-- The per-corner queries issued to the geometry collaborator after a
successful commit (lines 114-115), in corner-index order. -/
def crossedQueries (prev next : Bounds) : List (Location × Location) :=
  (List.finRange 4).map (fun i => (prev.corners i, next.corners i))

/-- Concatenation of the four `CalculateCrossedLanes` results (lines 113-117),
corner-index order outside, per-query order inside. -/
def crossedLanes {M : Type} (query : Location → Location → List M)
    (prev next : Bounds) : List M :=
  ((List.finRange 4).map (fun i => query (prev.corners i) (next.corners i))).flatten

/-- Everything one invocation of `Tick` did: the slot content after the tick's
last store access, the write it performed (replaced value, new value; at most
one per tick), the geometry queries it issued, and the event it delivered. -/
structure TickOutcome (M : Type) where
  store : Option Bounds
  commit : Option (Option Bounds × Bounds)
  queries : List (Location × Location)
  event : Option (LaneInvasionEvent M)
deriving DecidableEq

/-- Lines 105-126: staleness-checked commit, then crossing computation and
event emission.  Entered with the slot holding `some prev`. -/
def tickCommitPhase {M : Type} (cb : CallbackState M) (snap : WorldSnapshot)
    (transform : Transform) (next prev : Bounds) (sched : Sched) :
    TickOutcome M :=
  match commitLoop next sched prev with
  | .stale cur => ⟨some cur, none, [], none⟩
  | .committed p =>
      let crossed := crossedLanes cb.calcCrossedLanes p next
      ⟨some next, some (some p, next), crossedQueries p next,
        if crossed.isEmpty then none
        else some ⟨snap.frame, snap.elapsed_seconds, transform, cb.parent,
          crossed⟩⟩

/-- Lines 97-126, entered after the baseline branch with a non-null `prev`:
the movement-threshold loop (lines 99-103) returns as soon as SOME corner's
displacement is below the threshold; otherwise the commit phase runs. -/
def tickFromPrev {M : Type} (cb : CallbackState M) (snap : WorldSnapshot)
    (transform : Transform) (next prev : Bounds) (sched : Sched) :
    TickOutcome M :=
  if ∃ i : Fin 4,
      (next.corners i - prev.corners i).sqLen < distance_threshold_sq then
    ⟨some prev, none, [], none⟩
  else tickCommitPhase cb snap transform next prev sched

/-- `LaneInvasionCallback::Tick` (lines 82-127).  Store accesses, in order:
the `load` (line 90), the baseline `compare_exchange` (line 93, only when the
load returned null), then the retry-loop exchanges. -/
def tick {M : Type} (fcos fsin : ℚ → ℚ) (fpi : ℚ) (cb : CallbackState M)
    (snap : WorldSnapshot) (store₀ : Option Bounds) (sched : Sched) :
    TickOutcome M :=
  match snap.find cb.parent with
  | none => ⟨store₀, none, [], none⟩
  | some transform =>
      let next := MakeBounds fcos fsin fpi cb.parent_bounding_box
        snap.frame transform
      match observeStore sched store₀ with
      | (none, sched₁) =>
          match observeStore sched₁ none with
          | (none, _) => ⟨some next, some (none, next), [], none⟩
          | (some b, sched₂) => tickFromPrev cb snap transform next b sched₂
      | (some p, sched₁) => tickFromPrev cb snap transform next p sched₁

/-- The handler registered with `RegisterOnTickEvent` (lines 168-174): run the
tick; if delivering the event raises, catch the exception at this boundary and
log `"LaneInvasionSensor:"` with the message instead of propagating.  The
callback runs after the commit, so the tick's outcome is already fixed when it
raises; `deliver` models a subscriber callback that may throw. -/
def registeredHandler {M : Type} (fcos fsin : ℚ → ℚ) (fpi : ℚ)
    (cb : CallbackState M) (deliver : LaneInvasionEvent M → Except String Unit)
    (snap : WorldSnapshot) (store₀ : Option Bounds) (sched : Sched) :
    TickOutcome M × List String :=
  let out := tick fcos fsin fpi cb snap store₀ sched
  match out.event with
  | none => (out, [])
  | some e =>
      match deliver e with
      | .ok _ => (out, [])
      | .error msg => (out, ["LaneInvasionSensor: " ++ msg])

/-- A call the detector makes to the external scheduler. -/
inductive SchedulerOp where
  | registerTick (id : ℕ)
  | removeTick (id : ℕ)
deriving DecidableEq, Repr

/-- Modelled from the spec: the external per-frame scheduler (the episode's
`RegisterOnTickEvent` / `RemoveOnTickEvent`, spec section 6) — registration
returns a fresh opaque id, removal deletes the registration with that id, and
id `0` means "no active registration", so fresh ids start at `1`. -/
structure Episode where
  nextId : ℕ
  active : List ℕ
deriving DecidableEq, Repr

/-- Modelled from the spec: `RegisterOnTickEvent` hands back a fresh id and
records the registration. -/
def Episode.registerOnTickEvent (ep : Episode) : ℕ × Episode :=
  (ep.nextId, ⟨ep.nextId + 1, ep.nextId :: ep.active⟩)

/-- Modelled from the spec: `RemoveOnTickEvent id` deletes the registration
with that id. -/
def Episode.removeOnTickEvent (ep : Episode) (id : ℕ) : Episode :=
  ⟨ep.nextId, ep.active.filter (fun i => i ≠ id)⟩

/-- Scheduler well-formedness: ids are nonzero and every active id was handed
out earlier than the next fresh one. -/
def Episode.WF (ep : Episode) : Prop :=
  1 ≤ ep.nextId ∧ ∀ i ∈ ep.active, i < ep.nextId

instance (ep : Episode) : Decidable ep.WF := by
  unfold Episode.WF; infer_instance

/-- The sensor's own registration state: the atomic `_callback_id`
(`0` = no active registration). -/
structure SensorState where
  callback_id : ℕ
deriving DecidableEq, Repr

/-- `LaneInvasionSensor::Listen` (lines 150-183).  When the parent is not a
vehicle the call logs and returns without touching anything.  Otherwise it
registers the new tick handler first, exchanges `_callback_id`, and only then
removes the previous registration (if there was one).  The third component
records the scheduler calls in order. -/
def Listen (isVehicle : Bool) (st : SensorState) (ep : Episode) :
    SensorState × Episode × List SchedulerOp :=
  if isVehicle = false then (st, ep, [])
  else
    let r := ep.registerOnTickEvent
    let callback_id := r.1
    let ep₁ := r.2
    let previous := st.callback_id
    if previous ≠ 0 then
      (⟨callback_id⟩, ep₁.removeOnTickEvent previous,
        [.registerTick callback_id, .removeTick previous])
    else
      (⟨callback_id⟩, ep₁, [.registerTick callback_id])

/-- `LaneInvasionSensor::Stop` (lines 186-197): exchange `_callback_id` with
`0` first, then `TryLock` the episode (`lockable` says whether that
succeeds); the previous registration is removed only when it existed and the
lock was obtained. -/
def Stop (st : SensorState) (lockable : Bool) (ep : Episode) :
    SensorState × Episode × List SchedulerOp :=
  let previous := st.callback_id
  if previous ≠ 0 ∧ lockable then
    (⟨0⟩, ep.removeOnTickEvent previous, [.removeTick previous])
  else
    (⟨0⟩, ep, [])

/-- The detector's at-most-one-live-registration invariant: the scheduler
holds exactly the sensor's registration when one is active, and none
otherwise. -/
def OneLive (st : SensorState) (ep : Episode) : Prop :=
  ep.active = if st.callback_id = 0 then [] else [st.callback_id]

instance (st : SensorState) (ep : Episode) : Decidable (OneLive st ep) := by
  unfold OneLive; infer_instance

/-! ### Equation lemmas for `tick` -/

theorem tick_eq_find_none {M : Type} (fcos fsin : ℚ → ℚ) (fpi : ℚ)
    (cb : CallbackState M) (snap : WorldSnapshot) (store₀ : Option Bounds)
    (sched : Sched) (h : snap.find cb.parent = none) :
    tick fcos fsin fpi cb snap store₀ sched = ⟨store₀, none, [], none⟩ := by
  unfold tick; rw [h]

theorem tick_eq_loaded_some {M : Type} (fcos fsin : ℚ → ℚ) (fpi : ℚ)
    (cb : CallbackState M) (snap : WorldSnapshot) (store₀ : Option Bounds)
    (sched sched₁ : Sched) (tf : Transform) (p : Bounds)
    (hfind : snap.find cb.parent = some tf)
    (hobs : observeStore sched store₀ = (some p, sched₁)) :
    tick fcos fsin fpi cb snap store₀ sched =
      tickFromPrev cb snap tf
        (MakeBounds fcos fsin fpi cb.parent_bounding_box snap.frame tf)
        p sched₁ := by
  unfold tick; rw [hfind, hobs]

theorem tick_eq_baseline {M : Type} (fcos fsin : ℚ → ℚ) (fpi : ℚ)
    (cb : CallbackState M) (snap : WorldSnapshot) (store₀ : Option Bounds)
    (sched sched₁ sched₂ : Sched) (tf : Transform)
    (hfind : snap.find cb.parent = some tf)
    (hobs : observeStore sched store₀ = (none, sched₁))
    (hcas : observeStore sched₁ none = (none, sched₂)) :
    tick fcos fsin fpi cb snap store₀ sched =
      ⟨some (MakeBounds fcos fsin fpi cb.parent_bounding_box snap.frame tf),
        some (none,
          MakeBounds fcos fsin fpi cb.parent_bounding_box snap.frame tf),
        [], none⟩ := by
  unfold tick; rw [hfind]; simp only [hobs, hcas]

theorem tick_eq_baseline_fail {M : Type} (fcos fsin : ℚ → ℚ) (fpi : ℚ)
    (cb : CallbackState M) (snap : WorldSnapshot) (store₀ : Option Bounds)
    (sched sched₁ sched₂ : Sched) (tf : Transform) (b : Bounds)
    (hfind : snap.find cb.parent = some tf)
    (hobs : observeStore sched store₀ = (none, sched₁))
    (hcas : observeStore sched₁ none = (some b, sched₂)) :
    tick fcos fsin fpi cb snap store₀ sched =
      tickFromPrev cb snap tf
        (MakeBounds fcos fsin fpi cb.parent_bounding_box snap.frame tf)
        b sched₂ := by
  unfold tick; rw [hfind]; simp only [hobs, hcas]

/-! ### The commit retry loop -/

theorem commitLoop_stale_of_le (next : Bounds) (sched : Sched) (prev : Bounds)
    (h : next.frame ≤ prev.frame) :
    commitLoop next sched prev = .stale prev := by
  cases sched with
  | nil => simp [commitLoop, h]
  | cons hd tl => cases hd <;> simp [commitLoop, h]

theorem commitLoop_committed_frame_lt (next : Bounds) (sched : Sched)
    (prev p : Bounds) (h : commitLoop next sched prev = .committed p) :
    p.frame < next.frame := by
  induction sched generalizing prev with
  | nil =>
      unfold commitLoop at h
      by_cases hle : next.frame ≤ prev.frame
      · simp [hle] at h
      · simp [hle] at h
        subst h
        omega
  | cons hd tl ih =>
      cases hd with
      | none =>
          unfold commitLoop at h
          by_cases hle : next.frame ≤ prev.frame
          · simp [hle] at h
          · simp [hle] at h
            subst h
            omega
      | some b =>
          unfold commitLoop at h
          by_cases hle : next.frame ≤ prev.frame
          · simp [hle] at h
          · simp only [if_neg hle] at h
            by_cases hb : b = prev
            · simp [hb] at h
              subst h
              omega
            · simp [hb] at h
              exact ih b h

/-! ### Shape lemmas for the per-tick phases -/

theorem tickFromPrev_noop_of_small {M : Type} (cb : CallbackState M)
    (snap : WorldSnapshot) (tf : Transform) (next prev : Bounds) (sched : Sched)
    (h : ∃ i : Fin 4,
      (next.corners i - prev.corners i).sqLen < distance_threshold_sq) :
    tickFromPrev cb snap tf next prev sched = ⟨some prev, none, [], none⟩ := by
  unfold tickFromPrev; rw [if_pos h]

theorem tickFromPrev_eq_commitPhase {M : Type} (cb : CallbackState M)
    (snap : WorldSnapshot) (tf : Transform) (next prev : Bounds) (sched : Sched)
    (h : ¬ ∃ i : Fin 4,
      (next.corners i - prev.corners i).sqLen < distance_threshold_sq) :
    tickFromPrev cb snap tf next prev sched =
      tickCommitPhase cb snap tf next prev sched := by
  unfold tickFromPrev; rw [if_neg h]

theorem tickCommitPhase_eq_stale {M : Type} (cb : CallbackState M)
    (snap : WorldSnapshot) (tf : Transform) (next prev cur : Bounds)
    (sched : Sched) (h : commitLoop next sched prev = .stale cur) :
    tickCommitPhase cb snap tf next prev sched = ⟨some cur, none, [], none⟩ := by
  unfold tickCommitPhase; rw [h]

theorem tickCommitPhase_eq_committed {M : Type} (cb : CallbackState M)
    (snap : WorldSnapshot) (tf : Transform) (next prev p : Bounds)
    (sched : Sched) (h : commitLoop next sched prev = .committed p) :
    tickCommitPhase cb snap tf next prev sched =
      ⟨some next, some (some p, next), crossedQueries p next,
        if (crossedLanes cb.calcCrossedLanes p next).isEmpty then none
        else some ⟨snap.frame, snap.elapsed_seconds, tf, cb.parent,
          crossedLanes cb.calcCrossedLanes p next⟩⟩ := by
  unfold tickCommitPhase; rw [h]

theorem tickFromPrev_stale_noop {M : Type} (cb : CallbackState M)
    (snap : WorldSnapshot) (tf : Transform) (next prev : Bounds) (sched : Sched)
    (h : next.frame ≤ prev.frame) :
    tickFromPrev cb snap tf next prev sched = ⟨some prev, none, [], none⟩ := by
  by_cases hm : ∃ i : Fin 4,
      (next.corners i - prev.corners i).sqLen < distance_threshold_sq
  · exact tickFromPrev_noop_of_small cb snap tf next prev sched hm
  · rw [tickFromPrev_eq_commitPhase cb snap tf next prev sched hm]
    exact tickCommitPhase_eq_stale cb snap tf next prev prev sched
      (commitLoop_stale_of_le next sched prev h)

theorem tickFromPrev_commit_frame_lt {M : Type} (cb : CallbackState M)
    (snap : WorldSnapshot) (tf : Transform) (next prev : Bounds) (sched : Sched)
    (p n : Bounds)
    (h : (tickFromPrev cb snap tf next prev sched).commit = some (some p, n)) :
    p.frame < n.frame := by
  by_cases hm : ∃ i : Fin 4,
      (next.corners i - prev.corners i).sqLen < distance_threshold_sq
  · rw [tickFromPrev_noop_of_small cb snap tf next prev sched hm] at h
    simp at h
  · rw [tickFromPrev_eq_commitPhase cb snap tf next prev sched hm] at h
    cases hc : commitLoop next sched prev with
    | stale cur =>
        rw [tickCommitPhase_eq_stale cb snap tf next prev cur sched hc] at h
        simp at h
    | committed q =>
        rw [tickCommitPhase_eq_committed cb snap tf next prev q sched hc] at h
        simp only [Option.some.injEq, Prod.mk.injEq] at h
        obtain ⟨hq, hn⟩ := h
        subst hq; subst hn
        exact commitLoop_committed_frame_lt _ _ _ _ hc

/-- Claim C1: whenever a tick replaces a committed snapshot, the new frame
number is strictly greater than the replaced one, and a tick whose incoming
snapshot's frame number is at most the committed one aborts without a commit,
without an event, without geometry queries (and, absent interference, without
changing the Frame Store). -/
theorem claim_C1_commit_monotone {M : Type} (fcos fsin : ℚ → ℚ) (fpi : ℚ)
    (cb : CallbackState M) (snap : WorldSnapshot) (store₀ : Option Bounds)
    (sched : Sched) :
    (∀ p n, (tick fcos fsin fpi cb snap store₀ sched).commit = some (some p, n) →
      p.frame < n.frame) ∧
    (∀ tf p, snap.find cb.parent = some tf →
      (observeStore sched store₀).1 = some p →
      snap.frame ≤ p.frame →
      (tick fcos fsin fpi cb snap store₀ sched).commit = none ∧
      (tick fcos fsin fpi cb snap store₀ sched).event = none ∧
      (tick fcos fsin fpi cb snap store₀ sched).queries = [] ∧
      (sched = [] → (tick fcos fsin fpi cb snap store₀ sched).store = store₀)) := by
  constructor
  · intro p n h
    cases hfind : snap.find cb.parent with
    | none =>
        rw [tick_eq_find_none fcos fsin fpi cb snap store₀ sched hfind] at h
        simp at h
    | some tf =>
        rcases ho : observeStore sched store₀ with ⟨v, sched₁⟩
        cases v with
        | some q =>
            rw [tick_eq_loaded_some fcos fsin fpi cb snap store₀ sched sched₁
              tf q hfind ho] at h
            exact tickFromPrev_commit_frame_lt cb snap tf _ q sched₁ p n h
        | none =>
            rcases ho2 : observeStore sched₁ none with ⟨w, sched₂⟩
            cases w with
            | none =>
                rw [tick_eq_baseline fcos fsin fpi cb snap store₀ sched sched₁
                  sched₂ tf hfind ho ho2] at h
                simp at h
            | some b =>
                rw [tick_eq_baseline_fail fcos fsin fpi cb snap store₀ sched
                  sched₁ sched₂ tf b hfind ho ho2] at h
                exact tickFromPrev_commit_frame_lt cb snap tf _ b sched₂ p n h
  · intro tf p hfind hload hle
    rcases ho : observeStore sched store₀ with ⟨v, sched₁⟩
    rw [ho] at hload
    simp only at hload
    subst hload
    rw [tick_eq_loaded_some fcos fsin fpi cb snap store₀ sched sched₁
      tf p hfind ho]
    rw [tickFromPrev_stale_noop cb snap tf _ p sched₁ hle]
    refine ⟨rfl, rfl, rfl, ?_⟩
    intro hnil
    subst hnil
    simp only [observeStore] at ho
    rw [(Prod.mk.injEq _ _ _ _).mp ho |>.1]

/-! ### Concrete fixtures shared by witnesses and counterexamples -/

/-- Float cosine stub used in concrete evaluations. -/
def fcos₀ : ℚ → ℚ := fun _ => 1

/-- Float sine stub used in concrete evaluations. -/
def fsin₀ : ℚ → ℚ := fun _ => 0

def tf₀ : Transform := ⟨⟨0, 0, 0⟩, ⟨0⟩⟩

def box₀ : BoundingBox := ⟨⟨0, 0, 0⟩, ⟨1, 1, 0⟩⟩

/-- A geometry collaborator reporting no crossings at all. -/
def noLanes : Location → Location → List ℕ := fun _ _ => []

def cb₀ : CallbackState ℕ := ⟨1, box₀, noLanes⟩

/-- A snapshot at frame 1 containing the tracked actor 1. -/
def snap₁ : WorldSnapshot := ⟨1, 0, [(1, tf₀)]⟩

/-- A committed snapshot at frame 5, far away from the footprint of `tf₀`. -/
def prev₅ : Bounds := ⟨5, fun _ => ⟨100, 100, 0⟩⟩

theorem claim_C1_witness :
    (tick fcos₀ fsin₀ 0 cb₀ snap₁ (some prev₅) []).commit = none ∧
    (tick fcos₀ fsin₀ 0 cb₀ snap₁ (some prev₅) []).event = none ∧
    (tick fcos₀ fsin₀ 0 cb₀ snap₁ (some prev₅) []).store = some prev₅ := by
  have h := (claim_C1_commit_monotone fcos₀ fsin₀ 0 cb₀ snap₁ (some prev₅) []).2
    tf₀ prev₅ (by rfl) (by rfl) (by decide)
  exact ⟨h.1, h.2.1, h.2.2.2 rfl⟩

/-- Claim C8: a tick whose world snapshot does not contain the tracked actor
is a silent no-op: the Frame Store value is returned untouched, no commit, no
geometry query, no event. -/
theorem claim_C8_missing_actor_noop {M : Type} (fcos fsin : ℚ → ℚ) (fpi : ℚ)
    (cb : CallbackState M) (snap : WorldSnapshot) (store₀ : Option Bounds)
    (sched : Sched) (h : snap.find cb.parent = none) :
    tick fcos fsin fpi cb snap store₀ sched = ⟨store₀, none, [], none⟩ := by
  unfold tick; rw [h]

/-- A snapshot at frame 7 that does not contain actor 1. -/
def snapNoActor : WorldSnapshot := ⟨7, 2, [(3, tf₀)]⟩

theorem claim_C8_witness :
    tick fcos₀ fsin₀ 0 cb₀ snapNoActor (some prev₅) [] =
      ⟨some prev₅, none, [], none⟩ :=
  claim_C8_missing_actor_noop fcos₀ fsin₀ 0 cb₀ snapNoActor (some prev₅) []
    (by rfl)

/-- Claim C4: with an empty Frame Store, a tick that successfully installs its
snapshot establishes the baseline — it commits the fresh snapshot and emits no
event and no geometry query, whatever the actor's transform is; when the
baseline compare-and-swap fails because another caller installed a snapshot
first, the tick falls through and continues with that now-current value. -/
theorem claim_C4_baseline_no_event {M : Type} (fcos fsin : ℚ → ℚ) (fpi : ℚ)
    (cb : CallbackState M) (snap : WorldSnapshot) (tf : Transform)
    (hfind : snap.find cb.parent = some tf) :
    (tick fcos fsin fpi cb snap none [] =
      ⟨some (MakeBounds fcos fsin fpi cb.parent_bounding_box snap.frame tf),
        some (none,
          MakeBounds fcos fsin fpi cb.parent_bounding_box snap.frame tf),
        [], none⟩) ∧
    (∀ rest, tick fcos fsin fpi cb snap none (none :: none :: rest) =
      ⟨some (MakeBounds fcos fsin fpi cb.parent_bounding_box snap.frame tf),
        some (none,
          MakeBounds fcos fsin fpi cb.parent_bounding_box snap.frame tf),
        [], none⟩) ∧
    (∀ b rest, tick fcos fsin fpi cb snap none (none :: some b :: rest) =
      tickFromPrev cb snap tf
        (MakeBounds fcos fsin fpi cb.parent_bounding_box snap.frame tf)
        b rest) := by
  refine ⟨?_, ?_, ?_⟩
  · exact tick_eq_baseline fcos fsin fpi cb snap none [] [] [] tf hfind rfl rfl
  · intro rest
    exact tick_eq_baseline fcos fsin fpi cb snap none (none :: none :: rest)
      (none :: rest) rest tf hfind rfl rfl
  · intro b rest
    exact tick_eq_baseline_fail fcos fsin fpi cb snap none
      (none :: some b :: rest) (some b :: rest) rest tf b hfind rfl rfl

theorem claim_C4_witness :
    (tick fcos₀ fsin₀ 0 cb₀ snap₁ none []).event = none ∧
    (tick fcos₀ fsin₀ 0 cb₀ snap₁ none []).commit =
      some (none, MakeBounds fcos₀ fsin₀ 0 box₀ 1 tf₀) ∧
    tick fcos₀ fsin₀ 0 cb₀ snap₁ none [none, some prev₅] =
      tickFromPrev cb₀ snap₁ tf₀ (MakeBounds fcos₀ fsin₀ 0 box₀ 1 tf₀)
        prev₅ [] := by
  have h := claim_C4_baseline_no_event fcos₀ fsin₀ 0 cb₀ snap₁ tf₀ (by rfl)
  refine ⟨?_, ?_, h.2.2 prev₅ []⟩
  · rw [h.1]
  · rw [h.1]
    rfl

/-- Every tick whose snapshot contains the tracked actor ends in one of three
shapes: a baseline install, an abort (movement / staleness / nothing at all
committed), or a full commit followed by the crossing computation. -/
theorem tick_cases {M : Type} (fcos fsin : ℚ → ℚ) (fpi : ℚ)
    (cb : CallbackState M) (snap : WorldSnapshot) (store₀ : Option Bounds)
    (sched : Sched) (tf : Transform)
    (hfind : snap.find cb.parent = some tf) :
    tick fcos fsin fpi cb snap store₀ sched =
      ⟨some (MakeBounds fcos fsin fpi cb.parent_bounding_box snap.frame tf),
        some (none,
          MakeBounds fcos fsin fpi cb.parent_bounding_box snap.frame tf),
        [], none⟩ ∨
    (∃ cur, tick fcos fsin fpi cb snap store₀ sched =
      ⟨some cur, none, [], none⟩) ∨
    (∃ p, tick fcos fsin fpi cb snap store₀ sched =
      ⟨some (MakeBounds fcos fsin fpi cb.parent_bounding_box snap.frame tf),
        some (some p,
          MakeBounds fcos fsin fpi cb.parent_bounding_box snap.frame tf),
        crossedQueries p
          (MakeBounds fcos fsin fpi cb.parent_bounding_box snap.frame tf),
        if (crossedLanes cb.calcCrossedLanes p
            (MakeBounds fcos fsin fpi cb.parent_bounding_box snap.frame tf)).isEmpty
        then none
        else some ⟨snap.frame, snap.elapsed_seconds, tf, cb.parent,
          crossedLanes cb.calcCrossedLanes p
            (MakeBounds fcos fsin fpi cb.parent_bounding_box snap.frame tf)⟩⟩) := by
  have fromPrev : ∀ prev sched₁,
      tick fcos fsin fpi cb snap store₀ sched =
        tickFromPrev cb snap tf
          (MakeBounds fcos fsin fpi cb.parent_bounding_box snap.frame tf)
          prev sched₁ →
      (∃ cur, tick fcos fsin fpi cb snap store₀ sched =
        ⟨some cur, none, [], none⟩) ∨
      (∃ p, tick fcos fsin fpi cb snap store₀ sched =
        ⟨some (MakeBounds fcos fsin fpi cb.parent_bounding_box snap.frame tf),
          some (some p,
            MakeBounds fcos fsin fpi cb.parent_bounding_box snap.frame tf),
          crossedQueries p
            (MakeBounds fcos fsin fpi cb.parent_bounding_box snap.frame tf),
          if (crossedLanes cb.calcCrossedLanes p
              (MakeBounds fcos fsin fpi cb.parent_bounding_box snap.frame tf)).isEmpty
          then none
          else some ⟨snap.frame, snap.elapsed_seconds, tf, cb.parent,
            crossedLanes cb.calcCrossedLanes p
              (MakeBounds fcos fsin fpi cb.parent_bounding_box snap.frame tf)⟩⟩) := by
    intro prev sched₁ heq
    by_cases hm : ∃ i : Fin 4,
        ((MakeBounds fcos fsin fpi cb.parent_bounding_box snap.frame tf).corners i
          - prev.corners i).sqLen < distance_threshold_sq
    · left
      exact ⟨prev, by rw [heq]; exact tickFromPrev_noop_of_small _ _ _ _ _ _ hm⟩
    · rw [tickFromPrev_eq_commitPhase _ _ _ _ _ _ hm] at heq
      cases hc : commitLoop
          (MakeBounds fcos fsin fpi cb.parent_bounding_box snap.frame tf)
          sched₁ prev with
      | stale cur =>
          left
          exact ⟨cur, by
            rw [heq]; exact tickCommitPhase_eq_stale _ _ _ _ _ _ _ hc⟩
      | committed p =>
          right
          exact ⟨p, by
            rw [heq]; exact tickCommitPhase_eq_committed _ _ _ _ _ _ _ hc⟩
  rcases ho : observeStore sched store₀ with ⟨v, sched₁⟩
  cases v with
  | some q =>
      have heq := tick_eq_loaded_some fcos fsin fpi cb snap store₀ sched sched₁
        tf q hfind ho
      rcases fromPrev q sched₁ heq with h | h
      · exact Or.inr (Or.inl h)
      · exact Or.inr (Or.inr h)
  | none =>
      rcases ho2 : observeStore sched₁ none with ⟨w, sched₂⟩
      cases w with
      | none =>
          exact Or.inl (tick_eq_baseline fcos fsin fpi cb snap store₀ sched
            sched₁ sched₂ tf hfind ho ho2)
      | some b =>
          have heq := tick_eq_baseline_fail fcos fsin fpi cb snap store₀ sched
            sched₁ sched₂ tf b hfind ho ho2
          rcases fromPrev b sched₂ heq with h | h
          · exact Or.inr (Or.inl h)
          · exact Or.inr (Or.inr h)

/-- Claim C3: when (and only when) a tick commits over a non-empty previous
snapshot `p`, it issues one geometry query per corner with the pair
`(p.corners i, next.corners i)`, in corner order; the event is emitted iff the
concatenated marking list is non-empty and then carries exactly that list with
the current frame number, elapsed seconds, the actor's transform and id. -/
theorem claim_C3_crossing_queries_and_emission {M : Type} (fcos fsin : ℚ → ℚ)
    (fpi : ℚ) (cb : CallbackState M) (snap : WorldSnapshot)
    (store₀ : Option Bounds) (sched : Sched) (tf : Transform)
    (hfind : snap.find cb.parent = some tf) :
    (∀ p n, (tick fcos fsin fpi cb snap store₀ sched).commit = some (some p, n) →
      (tick fcos fsin fpi cb snap store₀ sched).queries = crossedQueries p n ∧
      (tick fcos fsin fpi cb snap store₀ sched).event =
        (if (crossedLanes cb.calcCrossedLanes p n).isEmpty then none
         else some ⟨snap.frame, snap.elapsed_seconds, tf, cb.parent,
           crossedLanes cb.calcCrossedLanes p n⟩)) ∧
    ((∀ p n,
        (tick fcos fsin fpi cb snap store₀ sched).commit ≠ some (some p, n)) →
      (tick fcos fsin fpi cb snap store₀ sched).queries = [] ∧
      (tick fcos fsin fpi cb snap store₀ sched).event = none) := by
  rcases tick_cases fcos fsin fpi cb snap store₀ sched tf hfind with
    h | ⟨cur, h⟩ | ⟨p', h⟩
  · constructor
    · intro p n hc
      rw [h] at hc
      simp at hc
    · intro _
      rw [h]
      exact ⟨rfl, rfl⟩
  · constructor
    · intro p n hc
      rw [h] at hc
      simp at hc
    · intro _
      rw [h]
      exact ⟨rfl, rfl⟩
  · constructor
    · intro p n hc
      rw [h] at hc
      simp only [Option.some.injEq, Prod.mk.injEq] at hc
      obtain ⟨hp, hn⟩ := hc
      subst hp
      subst hn
      rw [h]
      exact ⟨rfl, rfl⟩
    · intro hno
      exfalso
      exact hno p' _ (by rw [h])

/-- A geometry collaborator reporting marking `42` exactly for the segment
from `(100, 100, 0)` (every corner of `prev₅`) to `(1, -1, 0)` (corner 2 of
the fresh footprint of `tf₀`), and nothing elsewhere. -/
def oneLane : Location → Location → List ℕ := fun a b =>
  if a = ⟨100, 100, 0⟩ ∧ b = ⟨1, -1, 0⟩ then [42] else []

def cbM : CallbackState ℕ := ⟨1, box₀, oneLane⟩

def snap₆ : WorldSnapshot := ⟨6, 0, [(1, tf₀)]⟩

theorem claim_C3_witness :
    (tick fcos₀ fsin₀ 0 cbM snap₆ (some prev₅) []).event =
      some ⟨6, 0, tf₀, 1, [42]⟩ := by
  have h := (claim_C3_crossing_queries_and_emission fcos₀ fsin₀ 0 cbM snap₆
    (some prev₅) [] tf₀ (by rfl)).1 prev₅
    (MakeBounds fcos₀ fsin₀ 0 box₀ 6 tf₀) (by decide)
  rw [h.2]
  decide

/-- A previously committed snapshot whose corner 0 coincides with corner 0 of
the fresh footprint of `tf₀` while the other three corners are far away. -/
def prevMix : Bounds :=
  ⟨0, fun i => if i = 0 then ⟨1, 1, 0⟩ else ⟨100, 100, 0⟩⟩

/-- Claim C2 as stated is false on the code: here corner 1 moved far beyond
the threshold and the committed frame (0) is older than the incoming frame
(1), so the claim demands that the tick proceed to the staleness check and
commit; but the loop of lines 99-103 returns as soon as ANY corner's
displacement is below the threshold — corner 0 alone suffices — and the tick
is a no-op. -/
theorem claim_C2_counterexample :
    prevMix.frame < (MakeBounds fcos₀ fsin₀ 0 box₀ 1 tf₀).frame ∧
    distance_threshold_sq ≤
      ((MakeBounds fcos₀ fsin₀ 0 box₀ 1 tf₀).corners 1 -
        prevMix.corners 1).sqLen ∧
    tick fcos₀ fsin₀ 0 cb₀ snap₁ (some prevMix) [] =
      ⟨some prevMix, none, [], none⟩ := by
  refine ⟨by decide, by decide, ?_⟩
  have heq := tick_eq_loaded_some fcos₀ fsin₀ 0 cb₀ snap₁ (some prevMix) [] []
    tf₀ prevMix (by rfl) (by rfl)
  rw [heq]
  exact tickFromPrev_noop_of_small _ _ _ _ _ _ ⟨0, by decide⟩

/-- Claim C2 (amended): with a non-empty committed snapshot `prev` and a
freshly built `next`, the movement-threshold check makes the tick a no-op —
no commit, no crossing check, no event — exactly when AT LEAST ONE of the 4
per-corner displacements is below the fixed threshold; only when every
corner's displacement is at or above the threshold does the tick proceed to
the staleness check and commit. -/
theorem claim_C2_amended_any_corner_noop {M : Type} (fcos fsin : ℚ → ℚ)
    (fpi : ℚ) (cb : CallbackState M) (snap : WorldSnapshot)
    (store₀ : Option Bounds) (sched sched₁ : Sched) (tf : Transform)
    (prev : Bounds)
    (hfind : snap.find cb.parent = some tf)
    (hload : observeStore sched store₀ = (some prev, sched₁)) :
    ((∃ i : Fin 4,
        ((MakeBounds fcos fsin fpi cb.parent_bounding_box snap.frame tf).corners i
          - prev.corners i).sqLen < distance_threshold_sq) →
      tick fcos fsin fpi cb snap store₀ sched = ⟨some prev, none, [], none⟩) ∧
    ((∀ i : Fin 4, distance_threshold_sq ≤
        ((MakeBounds fcos fsin fpi cb.parent_bounding_box snap.frame tf).corners i
          - prev.corners i).sqLen) →
      tick fcos fsin fpi cb snap store₀ sched =
        tickCommitPhase cb snap tf
          (MakeBounds fcos fsin fpi cb.parent_bounding_box snap.frame tf)
          prev sched₁) := by
  have heq := tick_eq_loaded_some fcos fsin fpi cb snap store₀ sched sched₁
    tf prev hfind hload
  constructor
  · intro hm
    rw [heq]
    exact tickFromPrev_noop_of_small _ _ _ _ _ _ hm
  · intro hall
    rw [heq]
    apply tickFromPrev_eq_commitPhase
    rintro ⟨i, hi⟩
    exact absurd hi (not_lt.mpr (hall i))

theorem claim_C2_witness :
    tick fcos₀ fsin₀ 0 cb₀ snap₁ (some prev₅) [] =
      tickCommitPhase cb₀ snap₁ tf₀ (MakeBounds fcos₀ fsin₀ 0 box₀ 1 tf₀)
        prev₅ [] :=
  (claim_C2_amended_any_corner_noop fcos₀ fsin₀ 0 cb₀ snap₁ (some prev₅) [] []
    tf₀ prev₅ (by rfl) (by rfl)).2 (by decide)

/-- A stale committed snapshot at frame 0, all corners far from `tf₀`'s
footprint. -/
def prevFar : Bounds := ⟨0, fun _ => ⟨100, 100, 0⟩⟩

def snap₂ : WorldSnapshot := ⟨2, 0, [(1, tf₀)]⟩

/-- The footprint the tick at frame 2 builds for `tf₀`. -/
def nextB : Bounds := MakeBounds fcos₀ fsin₀ 0 box₀ 2 tf₀

/-- A snapshot another thread commits at frame 1: same corners as `nextB`. -/
def bMid : Bounds := ⟨1, nextB.corners⟩

/-- Claim C9: the movement check runs once, against the snapshot loaded
before the retry loop (here `prevFar`, all four displacements above the
threshold); when the compare-exchange fails and `prev` is refreshed to
`bMid` the check is not re-evaluated, so the tick commits and runs the
crossing computation between `bMid` and `nextB` although all four of their
per-corner displacements are below the threshold (they are zero). -/
theorem claim_C9_no_recheck_after_retry :
    (tick fcos₀ fsin₀ 0 cb₀ snap₂ (some prevFar) [none, some bMid]).commit =
      some (some bMid, nextB) ∧
    (tick fcos₀ fsin₀ 0 cb₀ snap₂ (some prevFar) [none, some bMid]).queries =
      crossedQueries bMid nextB ∧
    (tick fcos₀ fsin₀ 0 cb₀ snap₂ (some prevFar) [none, some bMid]).queries ≠
      [] ∧
    ((nextB.corners 0 - bMid.corners 0).sqLen < distance_threshold_sq ∧
     (nextB.corners 1 - bMid.corners 1).sqLen < distance_threshold_sq ∧
     (nextB.corners 2 - bMid.corners 2).sqLen < distance_threshold_sq ∧
     (nextB.corners 3 - bMid.corners 3).sqLen < distance_threshold_sq) ∧
    (distance_threshold_sq ≤ (nextB.corners 0 - prevFar.corners 0).sqLen ∧
     distance_threshold_sq ≤ (nextB.corners 1 - prevFar.corners 1).sqLen ∧
     distance_threshold_sq ≤ (nextB.corners 2 - prevFar.corners 2).sqLen ∧
     distance_threshold_sq ≤ (nextB.corners 3 - prevFar.corners 3).sqLen) := by
  decide

/-- Claim C5: the snapshot builder tags the given frame number; `Rotate`
converts the yaw from degrees to radians with the factor `pi / 180`, applies
the standard 2D rotation matrix to `(x, y)` and passes `z` through unchanged;
the center is `transform.location + bounding_box.center_offset` and the four
corners add the rotated signed half-extents in the fixed order
`(+x,+y), (-x,+y), (+x,-y), (-x,-y)` on every call. -/
theorem claim_C5_rotate_and_corner_order (fcos fsin : ℚ → ℚ) (fpi : ℚ)
    (box : BoundingBox) (frame : ℕ) (tf : Transform) (yaw : ℚ) (l : Location) :
    (MakeBounds fcos fsin fpi box frame tf).frame = frame ∧
    (Rotate fcos fsin fpi yaw l).z = l.z ∧
    Rotate fcos fsin fpi yaw l =
      ⟨fcos (yaw * (fpi / 180)) * l.x - fsin (yaw * (fpi / 180)) * l.y,
       fsin (yaw * (fpi / 180)) * l.x + fcos (yaw * (fpi / 180)) * l.y,
       l.z⟩ ∧
    (MakeBounds fcos fsin fpi box frame tf).corners 0 =
      (tf.location + box.location) +
        Rotate fcos fsin fpi tf.rotation.yaw
          ⟨box.extent.x, box.extent.y, 0⟩ ∧
    (MakeBounds fcos fsin fpi box frame tf).corners 1 =
      (tf.location + box.location) +
        Rotate fcos fsin fpi tf.rotation.yaw
          ⟨-box.extent.x, box.extent.y, 0⟩ ∧
    (MakeBounds fcos fsin fpi box frame tf).corners 2 =
      (tf.location + box.location) +
        Rotate fcos fsin fpi tf.rotation.yaw
          ⟨box.extent.x, -box.extent.y, 0⟩ ∧
    (MakeBounds fcos fsin fpi box frame tf).corners 3 =
      (tf.location + box.location) +
        Rotate fcos fsin fpi tf.rotation.yaw
          ⟨-box.extent.x, -box.extent.y, 0⟩ :=
  ⟨rfl, rfl, rfl, rfl, rfl, rfl, rfl⟩

/-- Claim C6: a subscriber exception during event delivery is caught at the
registered-handler boundary and converted into a log line; the tick outcome —
Frame Store content, commit, queries, event — is exactly the result of
`tick`, independent of the delivery function, so the detector's state is
unaffected and subsequent ticks run as if the subscriber had not raised. -/
theorem claim_C6_subscriber_exception_contained {M : Type}
    (fcos fsin : ℚ → ℚ) (fpi : ℚ) (cb : CallbackState M)
    (deliver deliver' : LaneInvasionEvent M → Except String Unit)
    (snap : WorldSnapshot) (store₀ : Option Bounds) (sched : Sched) :
    (registeredHandler fcos fsin fpi cb deliver snap store₀ sched).1 =
      tick fcos fsin fpi cb snap store₀ sched ∧
    (registeredHandler fcos fsin fpi cb deliver snap store₀ sched).1 =
      (registeredHandler fcos fsin fpi cb deliver' snap store₀ sched).1 ∧
    (∀ e msg, (tick fcos fsin fpi cb snap store₀ sched).event = some e →
      deliver e = .error msg →
      (registeredHandler fcos fsin fpi cb deliver snap store₀ sched).2 =
        ["LaneInvasionSensor: " ++ msg]) := by
  have key : ∀ d : LaneInvasionEvent M → Except String Unit,
      (registeredHandler fcos fsin fpi cb d snap store₀ sched).1 =
        tick fcos fsin fpi cb snap store₀ sched := by
    intro d
    unfold registeredHandler
    dsimp only
    rcases htick : (tick fcos fsin fpi cb snap store₀ sched).event with _ | e
    · rfl
    · show (match d e with
        | Except.ok _ =>
            (tick fcos fsin fpi cb snap store₀ sched, ([] : List String))
        | Except.error msg =>
            (tick fcos fsin fpi cb snap store₀ sched,
              ["LaneInvasionSensor: " ++ msg])).1 =
          tick fcos fsin fpi cb snap store₀ sched
      cases d e with
      | ok u => rfl
      | error msg => rfl
  refine ⟨key deliver, (key deliver).trans (key deliver').symm, ?_⟩
  intro e msg he hd
  unfold registeredHandler
  dsimp only
  rw [he]
  show (match deliver e with
    | Except.ok _ => (tick fcos fsin fpi cb snap store₀ sched, ([] : List String))
    | Except.error msg =>
        (tick fcos fsin fpi cb snap store₀ sched,
          ["LaneInvasionSensor: " ++ msg])).2 = ["LaneInvasionSensor: " ++ msg]
  rw [hd]

/-- A subscriber whose callback always raises. -/
def failDeliver : LaneInvasionEvent ℕ → Except String Unit :=
  fun _ => .error "boom"

theorem claim_C6_witness :
    (registeredHandler fcos₀ fsin₀ 0 cbM failDeliver snap₆
      (some prev₅) []).2 = ["LaneInvasionSensor: boom"] ∧
    (registeredHandler fcos₀ fsin₀ 0 cbM failDeliver snap₆
      (some prev₅) []).1 = tick fcos₀ fsin₀ 0 cbM snap₆ (some prev₅) [] := by
  have h := claim_C6_subscriber_exception_contained fcos₀ fsin₀ 0 cbM
    failDeliver failDeliver snap₆ (some prev₅) []
  exact ⟨h.2.2 ⟨6, 0, tf₀, 1, [42]⟩ "boom" (by decide) rfl, h.1⟩

/-- Computation of `Listen` from a well-formed single-registration state: the
new callback id is the fresh scheduler id, the scheduler ends up with exactly
that registration, and the new handler is installed before the old one is
removed. -/
theorem listen_core (st : SensorState) (ep : Episode) (hwf : ep.WF)
    (hinv : OneLive st ep) :
    Listen true st ep =
      (⟨ep.nextId⟩, ⟨ep.nextId + 1, [ep.nextId]⟩,
        if st.callback_id = 0 then [.registerTick ep.nextId]
        else [.registerTick ep.nextId, .removeTick st.callback_id]) := by
  unfold OneLive at hinv
  by_cases hz : st.callback_id = 0
  · rw [if_pos hz] at hinv
    simp [Listen, Episode.registerOnTickEvent, hz, hinv]
  · rw [if_neg hz] at hinv
    have hlt : st.callback_id < ep.nextId := by
      refine hwf.2 st.callback_id ?_
      rw [hinv]
      exact List.mem_singleton.mpr rfl
    have hne : ep.nextId ≠ st.callback_id := by omega
    simp [Listen, Episode.registerOnTickEvent, Episode.removeOnTickEvent,
      hz, hinv, List.filter, hne]

/-- Claim C7: the detector keeps at most one live scheduler registration:
from any single-registration state, `listen()` installs the fresh
registration before removing the old one and re-establishes the
single-registration invariant (so calling it twice leaves exactly one active
registration); `stop()` clears the id and removes the active registration if
one exists, is a no-op when none exists (id 0), and is safe to repeat. -/
theorem claim_C7_at_most_one_registration (st : SensorState) (ep : Episode)
    (hwf : ep.WF) (hinv : OneLive st ep) :
    (OneLive (Listen true st ep).1 (Listen true st ep).2.1 ∧
      ((Listen true st ep).2.1).WF ∧
      (Listen true st ep).1.callback_id ≠ 0) ∧
    (st.callback_id ≠ 0 → (Listen true st ep).2.2 =
      [.registerTick ep.nextId, .removeTick st.callback_id]) ∧
    ((Listen true (Listen true st ep).1 (Listen true st ep).2.1).2.1.active =
      [(Listen true (Listen true st ep).1 (Listen true st ep).2.1).1.callback_id]) ∧
    ((Stop st true ep).1.callback_id = 0 ∧
      (Stop st true ep).2.1.active = []) ∧
    (st.callback_id = 0 → ∀ lockable, Stop st lockable ep = (⟨0⟩, ep, [])) ∧
    (∀ lockable, Stop (Stop st true ep).1 lockable (Stop st true ep).2.1 =
      (⟨0⟩, (Stop st true ep).2.1, [])) := by
  have hcore := listen_core st ep hwf hinv
  have hne0 : ep.nextId ≠ 0 := by
    have := hwf.1
    omega
  have hwf' : (Episode.mk (ep.nextId + 1) [ep.nextId]).WF := by
    constructor
    · show 1 ≤ ep.nextId + 1
      omega
    · intro i hi
      have hie : i = ep.nextId := List.mem_singleton.mp hi
      show i < ep.nextId + 1
      omega
  have hinv' : OneLive ⟨ep.nextId⟩ ⟨ep.nextId + 1, [ep.nextId]⟩ := by
    unfold OneLive
    rw [if_neg hne0]
  refine ⟨?_, ?_, ?_, ?_, ?_, ?_⟩
  · rw [hcore]
    exact ⟨hinv', hwf', hne0⟩
  · intro hz
    rw [hcore]
    simp [hz]
  · rw [hcore]
    have hcore' := listen_core ⟨ep.nextId⟩ ⟨ep.nextId + 1, [ep.nextId]⟩ hwf' hinv'
    simp only
    rw [hcore']
  · unfold OneLive at hinv
    by_cases hz : st.callback_id = 0
    · rw [if_pos hz] at hinv
      have : Stop st true ep = (⟨0⟩, ep, []) := by
        unfold Stop
        rw [if_neg (by simp [hz])]
      rw [this]
      exact ⟨rfl, hinv⟩
    · rw [if_neg hz] at hinv
      have : Stop st true ep =
          (⟨0⟩, ep.removeOnTickEvent st.callback_id, [.removeTick st.callback_id]) := by
        unfold Stop
        rw [if_pos ⟨hz, rfl⟩]
      rw [this]
      refine ⟨rfl, ?_⟩
      unfold Episode.removeOnTickEvent
      rw [hinv]
      simp [List.filter]
  · intro hz lockable
    unfold Stop
    rw [if_neg (by simp [hz])]
  · intro lockable
    have h1 : (Stop st true ep).1 = ⟨0⟩ := by
      unfold Stop
      by_cases hz : st.callback_id ≠ 0
      · rw [if_pos ⟨hz, rfl⟩]
      · rw [if_neg fun hc => hz hc.1]
    rw [h1]
    unfold Stop
    rw [if_neg (by simp)]

theorem claim_C7_witness :
    (Listen true (Listen true ⟨0⟩ ⟨1, []⟩).1
        (Listen true ⟨0⟩ ⟨1, []⟩).2.1).2.1.active =
      [(Listen true (Listen true ⟨0⟩ ⟨1, []⟩).1
        (Listen true ⟨0⟩ ⟨1, []⟩).2.1).1.callback_id] ∧
    (Stop (⟨3⟩ : SensorState) true ⟨4, [3]⟩).2.1.active = [] := by
  have h1 := claim_C7_at_most_one_registration ⟨0⟩ ⟨1, []⟩
    (by decide) (by decide)
  have h2 := claim_C7_at_most_one_registration ⟨3⟩ ⟨4, [3]⟩
    (by decide) (by decide)
  exact ⟨h1.2.2.1, h2.2.2.2.1.2⟩

/-- Claim C10: when `Stop()` cannot lock the episode, it still resets the
stored callback id to 0 but issues no removal call: the episode — and with it
the scheduler-side registration — is left untouched. -/
theorem claim_C10_stop_without_lock (st : SensorState) (ep : Episode)
    (_h : st.callback_id ≠ 0) :
    Stop st false ep = (⟨0⟩, ep, []) := by
  unfold Stop
  rw [if_neg (by simp)]

theorem claim_C10_witness :
    Stop (⟨3⟩ : SensorState) false ⟨5, [3]⟩ = (⟨0⟩, ⟨5, [3]⟩, []) :=
  claim_C10_stop_without_lock ⟨3⟩ ⟨5, [3]⟩ (by decide)

end CarlaLaneInvasion
